import Mathlib

/-
  Verification of the tenant-resolution core of the
  backend-rochin-landscaping repository.

  The development shallowly embeds `src/middlewares/tenantResolver.js`:
  the domain extractor `extractTenantDomain`, the request resolver
  `resolveTenant`, and the access check `validateTenantAccess`.

  Modelling conventions:
  - A JavaScript value that is either a string, `null` or `undefined` is
    `Option String` (`none` for null/undefined, `some s` for a string).
  - JavaScript truthiness on such a value: `none` and `some ""` are falsy,
    every other `some s` is truthy (`truthy` below); `a || b` is `jsOr`.
  - MongoDB ObjectIds are modelled as `String` (the code only ever
    compares them via `toString()`).
  - The tenant directory (`Tenant.findOne {subdomain: k}`) is a
    `List Tenant` searched with `List.find?` on the `subdomain` field.
  - Publication of the request-scoped context (`tenantContext.run`) and
    error signalling (`next(new ErrorResponse(msg, status))`) are the two
    constructors of `TenantResolveResult`: a single request resolution
    ends in exactly one of them, which makes "rejected before any context
    is published" expressible as "the result is `err`, not `ok`".
-/
namespace TenantResolver

/-- JavaScript truthiness restricted to string-or-nullish values:
`null`/`undefined` and the empty string are falsy. -/
def truthy : Option String → Bool
  | none => false
  | some s => s ≠ ""

/-- JavaScript `a || b` on string-or-nullish values. -/
def jsOr (a b : Option String) : Option String :=
  if truthy a then a else b

/-- Split a character list at every occurrence of `sep`; an empty list
yields one empty piece, matching the JavaScript string method
`split(sep)`, which always returns at least one piece. -/
def splitOnChar (sep : Char) : List Char → List (List Char)
  | [] => [[]]
  | c :: rest =>
    let pieces := splitOnChar sep rest
    if c = sep then [] :: pieces
    else
      match pieces with
      | [] => [[c]]
      | piece :: rest' => (c :: piece) :: rest'

/-- JavaScript `s.split(sep)` for a single-character separator, as used
by the source with separators `:` and `.`. -/
def jsSplit (sep : Char) (s : String) : List String :=
  (splitOnChar sep s.toList).map fun cs => String.mk cs

/-- JavaScript `s.includes(c)` for a single-character needle, as used by
the source with needles `-` and `.`. -/
def jsIncludes (s : String) (c : Char) : Bool :=
  s.toList.contains c

/-- JavaScript `s.startsWith(p)`, as used by the source on the request
path. -/
def jsStartsWith (s p : String) : Bool :=
  p.toList.isPrefixOf s.toList

/-- Subscription subdocument of a tenant record: only the `status`
field is read by the resolver. -/
structure Subscription where
  status : String
deriving DecidableEq, Repr

/-- The fields of a tenant directory record that the resolver reads:
`_id` (modelled as its string form), `name`, the `subdomain` routing key,
and the optional `subscription` subdocument. -/
structure Tenant where
  id : String
  name : String
  subdomain : String
  subscription : Option Subscription
deriving DecidableEq, Repr

/-- The request-scoped tenant context published by `tenantContext.run`:
either the empty object `{}` or `{ tenantId: tenant._id, tenant }`. -/
inductive TenantCtx where
  | empty : TenantCtx
  | scoped (tenantId : String) (tenant : Tenant) : TenantCtx
deriving DecidableEq, Repr

/-- Outcome of one run of the `resolveTenant` middleware: either a
context was published and the chain continued (`ok`), or the middleware
called `next(new ErrorResponse(message, status))` (`err`). -/
inductive TenantResolveResult where
  | ok (ctx : TenantCtx) : TenantResolveResult
  | err (message : String) (status : Nat) : TenantResolveResult
deriving DecidableEq, Repr

/-- Function `extractTenantDomain` from `src/middlewares/tenantResolver.js`.
Input is the raw host-like string (`none` when the header is absent).
Mirrors the source line by line: falsy input gives `null`; strip
everything from the first `:`; the local and production super-admin
hostnames give `null`; a hyphenated dot-free machine name is returned
as-is; a 3+-label domain whose first label is not `www` gives its first
label; anything else is returned as-is. -/
def extractTenantDomain (host : Option String) : Option String :=
  match host with
  | none => none
  | some h =>
    if h = "" then none
    else
      let domain := (jsSplit ':' h).headD ""
      if domain = "localhost" ∨ domain = "127.0.0.1" then none
      else if domain = "www.landscape360.com" ∨ domain = "landscape360.com" ∨
              domain = "delxn.club" ∨ domain = "www.delxn.club" ∨
              domain = "backend-rochin-landscaping.onrender.com" then none
      else if jsIncludes domain '-' ∧ ¬ jsIncludes domain '.' then some domain
      else
        let parts := jsSplit '.' domain
        if 3 ≤ parts.length ∧ parts.headD "" ≠ "www" then some (parts.headD "")
        else some domain

/-- The resolution key computed at the top of `resolveTenant`:
`resolvedFromHeader = headerSubdomain || (headerDomain ? extractTenantDomain(headerDomain) : null)`
then `tenantDomain = resolvedFromHeader || extractTenantDomain(req.headers.host)`. -/
def resolutionKey (headerSubdomain headerDomain host : Option String) : Option String :=
  jsOr (jsOr headerSubdomain
          (if truthy headerDomain then extractTenantDomain headerDomain else none))
    (extractTenantDomain host)

/-- The check that `subscription?.status` equals `inactive` from the
source: optional chaining makes an absent subscription compare unequal. -/
def subscriptionInactive (t : Tenant) : Bool :=
  match t.subscription with
  | some sub => sub.status = "inactive"
  | none => false

/-- Middleware `resolveTenant` from `src/middlewares/tenantResolver.js`,
as a pure function of the request metadata and the tenant directory. Steps, in
source order: compute the resolution key; if it is falsy or the path is
under `/api/v1/admin` or `/api/v1/super-admin`, publish `{}`; otherwise
look the key up by `subdomain`; no match is a 404 whose message embeds
the key; a match whose `subscription?.status` equals `inactive` is a 403;
otherwise publish `{ tenantId, tenant }`. -/
def resolveTenant (headerSubdomain headerDomain host : Option String)
    (path : String) (directory : List Tenant) : TenantResolveResult :=
  let tenantDomain := resolutionKey headerSubdomain headerDomain host
  if ¬ truthy tenantDomain ∨ jsStartsWith path "/api/v1/admin" ∨
      jsStartsWith path "/api/v1/super-admin" then
    .ok .empty
  else
    match directory.find? (fun t => t.subdomain = tenantDomain.getD "") with
    | none => .err ("Tenant not found for domain: " ++ tenantDomain.getD "") 404
    | some tenant =>
      if subscriptionInactive tenant then
        .err "Tenant account is inactive" 403
      else
        .ok (.scoped tenant.id tenant)

/-- The fields of `req.user` read by `validateTenantAccess`: the role
string and the principal's home-tenant id (`none` when the user document
has no `tenantId`). -/
structure User where
  role : String
  tenantId : Option String
deriving DecidableEq, Repr

/-- Outcome of one run of the `validateTenantAccess` middleware: either
`next()` was called (`pass`) or `next(new ErrorResponse(message, status))`
(`denied`). -/
inductive AccessResult where
  | pass : AccessResult
  | denied (message : String) (status : Nat) : AccessResult
deriving DecidableEq, Repr

/-- Middleware `validateTenantAccess` from `src/middlewares/tenantResolver.js`.
Here `user` is `req.user` (`none` when no principal is attached); `store` is
`tenantContext.getStore()` (`none` when no context was ever established,
`some .empty` for the published `{}`). Mirrors the source: a `superAdmin`
role passes; a store without `tenantId` passes; a present user whose
`tenantId?.toString()` differs from the store's `tenantId.toString()` is
denied with 403; everything else passes. -/
def validateTenantAccess (user : Option User) (store : Option TenantCtx) :
    AccessResult :=
  if (user.map User.role) = some "superAdmin" then .pass
  else
    match store with
    | none => .pass
    | some .empty => .pass
    | some (.scoped storeTenantId _) =>
      match user with
      | none => .pass
      | some u =>
        if u.tenantId ≠ some storeTenantId then
          .denied "Access denied: User does not belong to this tenant" 403
        else .pass

/-- The reserved admin/platform host set named by the spec: local
development aliases plus the configured platform domains, exactly the
hostnames the source maps to super-admin mode. -/
def reservedAdminHosts : List String :=
  ["localhost", "127.0.0.1", "www.landscape360.com", "landscape360.com",
   "delxn.club", "www.delxn.club", "backend-rochin-landscaping.onrender.com"]

/-- Transcription of the claimed case analysis for the domain extractor
(spec side, to be compared with `extractTenantDomain`): after stripping a
`:port` suffix, a host in the reserved admin set yields null; a host
containing a hyphen and no dot is returned unchanged; a host with 3+
dot-separated labels whose first label is not `www` yields the first
label; any other host is returned unchanged in full; absent or empty
input yields null. -/
def extractTenantKeySpec (host : Option String) : Option String :=
  match host with
  | none => none
  | some h =>
    if h = "" then none
    else
      let stripped := (jsSplit ':' h).headD ""
      if stripped ∈ reservedAdminHosts then none
      else if jsIncludes stripped '-' ∧ ¬ jsIncludes stripped '.' then some stripped
      else
        let labels := jsSplit '.' stripped
        if 3 ≤ labels.length ∧ labels.headD "" ≠ "www" then some (labels.headD "")
        else some stripped

/-- Concrete directory entry used in the worked examples: an active
tenant registered under subdomain `acme`. -/
def acmeTenant : Tenant :=
  { id := "t-acme", name := "Acme Landscaping", subdomain := "acme",
    subscription := some { status := "active" } }

/-- Concrete directory entry whose subscription status is `inactive`. -/
def inactiveAcme : Tenant :=
  { id := "t-acme", name := "Acme Landscaping", subdomain := "acme",
    subscription := some { status := "inactive" } }

/-- Concrete directory entry whose subscription status is `trialing`. -/
def trialingBeta : Tenant :=
  { id := "t-beta", name := "Beta Gardens", subdomain := "beta",
    subscription := some { status := "trialing" } }

/-- Concrete authenticated principal whose home tenant (`t-other`)
differs from the tenant resolved in the worked examples. -/
def mismatchUser : User :=
  { role := "tenantAdmin", tenantId := some "t-other" }

/-- C1: when the resolution key is truthy, the path is not administrative,
and the directory lookup finds a tenant whose subscription status is
`inactive`, `resolveTenant` fails with the 403 inactive-tenant error, and
in particular no tenant context is published (the outcome is `err`, never
`ok`): the rejection happens before any tenant-scoped continuation runs. -/
theorem resolveTenant_inactive_rejected (hs hd host : Option String) (path : String)
    (directory : List Tenant) (t : Tenant)
    (hp1 : jsStartsWith path "/api/v1/admin" = false)
    (hp2 : jsStartsWith path "/api/v1/super-admin" = false)
    (hk : truthy (resolutionKey hs hd host) = true)
    (hf : directory.find? (fun x => x.subdomain = (resolutionKey hs hd host).getD "")
        = some t)
    (hi : subscriptionInactive t = true) :
    resolveTenant hs hd host path directory = .err "Tenant account is inactive" 403 ∧
    ∀ ctx, resolveTenant hs hd host path directory ≠ .ok ctx := by
  have hmain : resolveTenant hs hd host path directory
      = .err "Tenant account is inactive" 403 := by
    unfold resolveTenant
    simp [hk, hp1, hp2, hf, hi]
  exact ⟨hmain, fun ctx hc => by rw [hmain] at hc; exact TenantResolveResult.noConfusion hc⟩

/-- C1 witness: an inactive `acme` tenant resolved from host
`acme.example.com` is rejected with the 403 inactive-tenant error. -/
theorem resolveTenant_inactive_rejected_witness :
    resolveTenant none none (some "acme.example.com") "/api/v1/services" [inactiveAcme]
      = .err "Tenant account is inactive" 403 :=
  (resolveTenant_inactive_rejected none none (some "acme.example.com") "/api/v1/services"
    [inactiveAcme] inactiveAcme (by decide) (by decide) (by decide) (by decide)
    (by decide)).1

/-- C2 counterexample: resolving host `ghost.example.com` against an
empty directory does fail with status 404, but the error message the
client sees is the literal concatenation of a fixed text with the
unresolved key `ghost` — the key is embedded verbatim (the second
conjunct exhibits `ghost` as an infix of the message), not omitted or
redacted as the claim states. -/
theorem tenantNotFound_message_carries_key :
    resolveTenant none none (some "ghost.example.com") "/api/v1/services" []
        = .err ("Tenant not found for domain: " ++ "ghost") 404 ∧
      "ghost".toList <:+: ("Tenant not found for domain: ghost").toList := by
  constructor
  · decide
  · decide

/-- C2 amended: when the resolution key is truthy, the path is not
administrative, and no directory entry matches, `resolveTenant` fails
with status 404 and a message that carries the unresolved key verbatim
(diagnostic style, no redaction). -/
theorem resolveTenant_notFound_message (hs hd host : Option String) (path : String)
    (directory : List Tenant)
    (hp1 : jsStartsWith path "/api/v1/admin" = false)
    (hp2 : jsStartsWith path "/api/v1/super-admin" = false)
    (hk : truthy (resolutionKey hs hd host) = true)
    (hf : directory.find? (fun x => x.subdomain = (resolutionKey hs hd host).getD "")
        = none) :
    resolveTenant hs hd host path directory =
      .err ("Tenant not found for domain: " ++ (resolutionKey hs hd host).getD "") 404 := by
  unfold resolveTenant
  simp [hk, hp1, hp2, hf]

/-- C2 amended witness: the ghost lookup produces exactly the 404 error
whose message appends the unresolved key. -/
theorem resolveTenant_notFound_message_witness :
    resolveTenant none none (some "ghost.example.com") "/api/v1/services" [] =
      .err ("Tenant not found for domain: " ++
        (resolutionKey none none (some "ghost.example.com")).getD "") 404 :=
  resolveTenant_notFound_message none none (some "ghost.example.com") "/api/v1/services"
    [] (by decide) (by decide) (by decide) (by decide)

/-- C3 counterexample: the header `X-Tenant-Domain: localhost` is
present and extracts to null, so under the claimed strict precedence the
resolution key would be null and the resolver's own falsy-key step would
publish the empty context; the code instead falls through to the Host
header and resolves tenant `acme`, publishing a scoped context. -/
theorem headerDomain_fallback_counterexample :
    extractTenantDomain (some "localhost") = none ∧
    resolveTenant none (some "localhost") (some "acme.example.com") "/api/v1/services"
        [acmeTenant] = .ok (.scoped "t-acme" acmeTenant) ∧
    resolveTenant none (some "localhost") (some "acme.example.com") "/api/v1/services"
        [acmeTenant] ≠ .ok .empty := by
  refine ⟨by decide, by decide, by decide⟩

/-- C3 amended: the resolution key is the first truthy candidate among
the `X-Tenant-Subdomain` header value, the extraction of the
`X-Tenant-Domain` header (considered only when that header is truthy and
its extraction is truthy), and the extraction of the Host header; in
particular a truthy `X-Tenant-Subdomain` header always determines the
key by itself. -/
theorem resolutionKey_first_truthy (hs hd host : Option String) :
    resolutionKey hs hd host =
      if truthy hs then hs
      else if truthy hd && truthy (extractTenantDomain hd) then extractTenantDomain hd
      else extractTenantDomain host := by
  have tn : truthy none = false := rfl
  unfold resolutionKey jsOr
  by_cases h1 : truthy hs
  · simp [h1]
  · by_cases h2 : truthy hd
    · by_cases h3 : truthy (extractTenantDomain hd) <;> simp [h1, h2, h3]
    · simp [h1, h2, tn]

/-- C4: a request whose path starts with `/api/v1/admin` or
`/api/v1/super-admin` always makes `resolveTenant` publish the empty
context, for every combination of tenant headers, Host header and
directory contents — so no lookup outcome and no failure can be
observed. -/
theorem resolveTenant_adminPath_empty (hs hd host : Option String) (path : String)
    (directory : List Tenant)
    (h : jsStartsWith path "/api/v1/admin" = true ∨
      jsStartsWith path "/api/v1/super-admin" = true) :
    resolveTenant hs hd host path directory = .ok .empty := by
  unfold resolveTenant
  rcases h with h | h <;> simp [h]

/-- C4 witness: a super-admin path publishes the empty context even with
a subdomain header, a tenant host, and a matching directory entry. -/
theorem resolveTenant_adminPath_empty_witness :
    resolveTenant (some "beta") none (some "acme.example.com")
      "/api/v1/super-admin/stats" [acmeTenant] = .ok .empty :=
  resolveTenant_adminPath_empty (some "beta") none (some "acme.example.com")
    "/api/v1/super-admin/stats" [acmeTenant] (Or.inr (by decide))

/-- C5: the extractor implemented by the source coincides, on every
input, with the claimed case analysis `extractTenantKeySpec` (reserved
admin set to null, hyphenated dot-free host unchanged, 3+-label host
with non-`www` first label to its first label, everything else —
including `www.example.com` — unchanged in full, absent or empty input
to null). -/
theorem extractTenantDomain_matches_case_analysis :
    ∀ host : Option String, extractTenantDomain host = extractTenantKeySpec host := by
  intro host
  cases host with
  | none => rfl
  | some h =>
    simp only [extractTenantDomain, extractTenantKeySpec, reservedAdminHosts,
      List.mem_cons, List.not_mem_nil, or_false]
    split_ifs <;> first | rfl | tauto

/-- C6: `validateTenantAccess` passes unconditionally for a `superAdmin`
principal against any store; passes for a missing or empty store; and on
a tenant-scoped store a non-super-admin principal passes exactly when its
`tenantId` equals the store's, being denied with the 403 access error on
any mismatch (including a principal with no `tenantId`). -/
theorem validateTenantAccess_cases (u : User) (store : Option TenantCtx)
    (tid : String) (t : Tenant) :
    (u.role = "superAdmin" → validateTenantAccess (some u) store = .pass) ∧
    validateTenantAccess (some u) none = .pass ∧
    validateTenantAccess (some u) (some .empty) = .pass ∧
    (u.role ≠ "superAdmin" →
      ((validateTenantAccess (some u) (some (.scoped tid t)) = .pass ↔
          u.tenantId = some tid) ∧
        (u.tenantId ≠ some tid →
          validateTenantAccess (some u) (some (.scoped tid t)) =
            .denied "Access denied: User does not belong to this tenant" 403))) := by
  unfold validateTenantAccess
  by_cases hr : u.role = "superAdmin"
  · simp [hr]
  · by_cases ht : u.tenantId = some tid <;> simp [hr, ht]

/-- C6 witness: a `tenantAdmin` principal homed at `t-other` is denied
with 403 against the store scoped to `t-acme`. -/
theorem validateTenantAccess_cases_witness :
    validateTenantAccess (some mismatchUser) (some (.scoped "t-acme" acmeTenant)) =
      .denied "Access denied: User does not belong to this tenant" 403 :=
  ((validateTenantAccess_cases mismatchUser (some (.scoped "t-acme" acmeTenant))
      "t-acme" acmeTenant).2.2.2 (by decide)).2 (by decide)

/-- C8 counterexample: a malformed non-empty host does not yield null.
The host `:80` (a bare port suffix with no hostname) strips to the empty
string and is returned as a non-null value `some ""`, and the malformed
host `a..b` (an empty middle label) yields `some "a"` — refuting the
claim that malformed input yields null. -/
theorem extract_malformed_not_null :
    extractTenantDomain (some ":80") = some "" ∧
    extractTenantDomain (some ":80") ≠ none ∧
    extractTenantDomain (some "a..b") = some "a" := by
  refine ⟨by decide, by decide, by decide⟩

/-- C8 amended: the extractor is a total function — every input, absent
or arbitrary (malformed included), yields a result (there is no
exceptional outcome in the embedding) — and absent input (null/undefined
or the empty string) yields null; a malformed non-empty host still
yields a value, which need not be null. -/
theorem extractTenantDomain_total (host : Option String) :
    (∃ r : Option String, extractTenantDomain host = r) ∧
    ((host = none ∨ host = some "") → extractTenantDomain host = none) := by
  refine ⟨⟨_, rfl⟩, ?_⟩
  rintro (rfl | rfl) <;> rfl

/-- C8 amended witness: both absent shapes of input yield null. -/
theorem extractTenantDomain_total_witness :
    extractTenantDomain none = none ∧ extractTenantDomain (some "") = none :=
  ⟨(extractTenantDomain_total none).2 (Or.inl rfl),
   (extractTenantDomain_total (some "")).2 (Or.inr rfl)⟩

/-- C9: for a found tenant, `resolveTenant` raises the 403 inactive
error exactly when the tenant's `subscription?.status` check is true —
and whenever the status is any other string or the subscription is
absent, resolution succeeds and publishes the scoped tenant context. -/
theorem resolveTenant_inactive_iff (hs hd host : Option String) (path : String)
    (directory : List Tenant) (t : Tenant)
    (hp1 : jsStartsWith path "/api/v1/admin" = false)
    (hp2 : jsStartsWith path "/api/v1/super-admin" = false)
    (hk : truthy (resolutionKey hs hd host) = true)
    (hf : directory.find? (fun x => x.subdomain = (resolutionKey hs hd host).getD "")
        = some t) :
    (resolveTenant hs hd host path directory = .err "Tenant account is inactive" 403 ↔
      subscriptionInactive t = true) ∧
    (subscriptionInactive t = false →
      resolveTenant hs hd host path directory = .ok (.scoped t.id t)) := by
  unfold resolveTenant
  cases hi : subscriptionInactive t <;> simp [hk, hp1, hp2, hf, hi]

/-- C9 witness: a tenant whose subscription status is `trialing` is
resolved successfully and its context is published. -/
theorem resolveTenant_inactive_iff_witness :
    resolveTenant none none (some "beta.example.com") "/api/v1/services" [trialingBeta] =
      .ok (.scoped "t-beta" trialingBeta) :=
  (resolveTenant_inactive_iff none none (some "beta.example.com") "/api/v1/services"
      [trialingBeta] trialingBeta (by decide) (by decide) (by decide) (by decide)).2
    (by decide)

/-- C10: with no authenticated principal attached, `validateTenantAccess`
passes whatever the store holds; and any denial can only arise from a
present principal, a tenant-scoped store, a non-super-admin role and a
mismatched (or absent) principal `tenantId`. -/
theorem validateTenantAccess_noPrincipal (u : Option User) (store : Option TenantCtx)
    (m : String) (s : Nat) :
    validateTenantAccess none store = .pass ∧
    (validateTenantAccess u store = .denied m s →
      ∃ usr tid t, u = some usr ∧ store = some (.scoped tid t) ∧
        usr.role ≠ "superAdmin" ∧ usr.tenantId ≠ some tid) := by
  constructor
  · unfold validateTenantAccess
    cases store with
    | none => rfl
    | some ctx => cases ctx <;> rfl
  · intro hd
    unfold validateTenantAccess at hd
    by_cases hr : (u.map User.role) = some "superAdmin"
    · rw [if_pos hr] at hd
      exact absurd hd (by simp)
    · rw [if_neg hr] at hd
      rcases store with _ | (_ | ⟨tid, t⟩)
      · simp at hd
      · simp at hd
      · rcases u with _ | usr
        · simp at hd
        · dsimp only at hd
          by_cases hti : usr.tenantId = some tid
          · rw [if_neg (by simp [hti])] at hd
            simp at hd
          · exact ⟨usr, tid, t, rfl, rfl, by simpa using hr, hti⟩

/-- C10 witness: with no principal the scoped store passes; and the
denial reached by the mismatched principal yields exactly the advertised
shape. -/
theorem validateTenantAccess_noPrincipal_witness :
    validateTenantAccess none (some (.scoped "t-acme" acmeTenant)) = .pass ∧
    ∃ usr tid t, (some mismatchUser : Option User) = some usr ∧
      (some (TenantCtx.scoped "t-acme" acmeTenant) : Option TenantCtx) =
        some (.scoped tid t) ∧
      usr.role ≠ "superAdmin" ∧ usr.tenantId ≠ some tid :=
  ⟨(validateTenantAccess_noPrincipal (some mismatchUser)
      (some (.scoped "t-acme" acmeTenant))
      "Access denied: User does not belong to this tenant" 403).1,
   (validateTenantAccess_noPrincipal (some mismatchUser)
      (some (.scoped "t-acme" acmeTenant))
      "Access denied: User does not belong to this tenant" 403).2 (by decide)⟩

end TenantResolver
